import Mathlib

/-!
Shallow embedding of the `dbbase` repository (query.py, models.py, core.py)
and verification of its specification claims.

Modelling conventions:
* SQL parameter values are `SqlVal` (integers or strings); rows returned by
  the engine are association lists from column name to value.
* Python keyword-argument dictionaries are association lists in insertion
  order, matching `dict` iteration order.
* The underlying SQLite engine (out of scope for the spec) is an abstract
  oracle `DBModel σ` over an engine state `σ`; `DBBase`'s connection is an
  `Option σ` (`none` = not established).
* Stateful CRUD operations return, besides their result, the list of
  observable events they produce in order: plugin-hook invocations and the
  statements handed to the engine (with their bound parameter tuples).
* `f-string` concatenation and `str.join` are modelled by `++` and
  `joinSep`, proved below to agree with `String.intercalate`.
-/

namespace Dbbase

/-- A SQL value bound as a statement parameter or stored in a row. -/
inductive SqlVal where
  | intV (n : Int)
  | strV (s : String)
deriving DecidableEq

/-- Python `str()` of a value, as used by f-string interpolation of
a field default in `Field.get_definition`. -/
def SqlVal.toText : SqlVal → String
  | .intV n => toString n
  | .strV s => s

/-- A row returned by the engine: ordered column-name/value mapping
(`sqlite3.Row`). -/
abbrev DbRow := List (String × SqlVal)

/-- Python `sep.join(list)`. -/
def joinSep (sep : String) : List String → String
  | [] => ""
  | x :: xs => xs.foldl (fun acc y => acc ++ sep ++ y) x

/-- Number of `?` placeholders in a statement text. -/
def countQ (s : String) : Nat := s.data.count '?'

/-- Placeholder count of an optional ordering string (`0` when absent). -/
def countQopt : Option String → Nat
  | some o => countQ o
  | none => 0

/-- query.py `QueryBuilder.__init__` state: table name, equality filters,
LIKE filters, and the optional ordering string. LIKE-filter values are
strings because `build_select` concatenates them with `%`. -/
structure QueryBuilder where
  table_name : String
  filters : List (String × SqlVal)
  filter_likes : List (String × String)
  ordering : Option String
deriving DecidableEq

/-- Constructor `QueryBuilder(table_name)`: empty filters, no ordering. -/
def QueryBuilder.init (table_name : String) : QueryBuilder :=
  ⟨table_name, [], [], none⟩

/-- query.py `QueryBuilder.add_filter`: appends each kwarg pair. -/
def QueryBuilder.add_filter (qb : QueryBuilder)
    (kwargs : List (String × SqlVal)) : QueryBuilder :=
  { qb with filters := qb.filters ++ kwargs }

/-- query.py `QueryBuilder.add_filter_like`: appends each kwarg pair. -/
def QueryBuilder.add_filter_like (qb : QueryBuilder)
    (kwargs : List (String × String)) : QueryBuilder :=
  { qb with filter_likes := qb.filter_likes ++ kwargs }

/-- query.py `QueryBuilder.set_order`: overwrites the ordering string with
`"<field> DESC"` or `"<field> ASC"`. -/
def QueryBuilder.set_order (qb : QueryBuilder) (field_name : String)
    (descending : Bool) : QueryBuilder :=
  { qb with
      ordering := some (field_name ++ " " ++ (if descending then "DESC" else "ASC")) }

/-- query.py `QueryBuilder.build_select`: the statement text (each non-empty
filter kind appends its own `WHERE` clause, then the ordering) and the
parameter tuple (equality values, then `%`-wrapped LIKE values). -/
def QueryBuilder.build_select (qb : QueryBuilder) : String × List SqlVal :=
  let query := "SELECT * FROM " ++ qb.table_name
  let query :=
    if qb.filters = [] then query
    else query ++ " WHERE " ++
      joinSep " AND " (qb.filters.map (fun p => p.1 ++ " = ?"))
  let query :=
    if qb.filter_likes = [] then query
    else query ++ " WHERE " ++
      joinSep " AND " (qb.filter_likes.map (fun p => p.1 ++ " LIKE ?"))
  let query :=
    match qb.ordering with
    | some o => query ++ " ORDER BY " ++ o
    | none => query
  (query,
    qb.filters.map Prod.snd ++
      qb.filter_likes.map (fun p => SqlVal.strV ("%" ++ p.2 ++ "%")))

/-- Abstract behaviour of the out-of-scope SQLite engine over a state `σ`:
mutating execution, single-row fetch, multi-row fetch and script execution. -/
structure DBModel (σ : Type) where
  exec : σ → String → List SqlVal → σ
  fetch : σ → String → List SqlVal → Option DbRow
  fetchAll : σ → String → List SqlVal → List DbRow
  execScript : σ → String → σ

/-- core.py error taxonomy: `DatabaseConnectionError` raised either because
no connection is established or because the engine failed. -/
inductive DbError where
  | connectionNotEstablished
  | executionFailed (msg : String)
deriving DecidableEq

/-- Observable events of a CRUD operation, in occurrence order: plugin-hook
invocations (with their arguments) and statements handed to the engine. -/
inductive DbEvent where
  | hookBeforeSave (kwargs : List (String × SqlVal))
  | hookAfterSave (kwargs : List (String × SqlVal))
  | hookBeforeUpdate (pre : Option DbRow) (updates : List (String × SqlVal))
  | hookAfterUpdate (pre post : Option DbRow)
  | hookBeforeDelete (inst : Option DbRow)
  | hookAfterDelete (inst : Option DbRow)
  | execSQL (query : String) (params : List SqlVal)
  | fetchSQL (query : String) (params : List SqlVal)
  | scriptSQL (script : String)
deriving DecidableEq

/-- core.py `DBBase.execute`: raises `DatabaseConnectionError` when the
connection is `none`, otherwise hands the statement to the engine. -/
def DBBase.execute {σ : Type} (m : DBModel σ) (conn : Option σ)
    (query : String) (params : List SqlVal) :
    Except DbError σ × List DbEvent :=
  match conn with
  | none => (Except.error DbError.connectionNotEstablished, [])
  | some s => (Except.ok (m.exec s query params), [DbEvent.execSQL query params])

/-- core.py `DBBase.fetch_one` (via `execute`): single row or `none`. -/
def DBBase.fetch_one {σ : Type} (m : DBModel σ) (conn : Option σ)
    (query : String) (params : List SqlVal) :
    Except DbError (Option DbRow) × List DbEvent :=
  match conn with
  | none => (Except.error DbError.connectionNotEstablished, [])
  | some s => (Except.ok (m.fetch s query params), [DbEvent.fetchSQL query params])

/-- core.py `DBBase.fetch_all` (via `execute`). -/
def DBBase.fetch_all {σ : Type} (m : DBModel σ) (conn : Option σ)
    (query : String) (params : List SqlVal) :
    Except DbError (List DbRow) × List DbEvent :=
  match conn with
  | none => (Except.error DbError.connectionNotEstablished, [])
  | some s => (Except.ok (m.fetchAll s query params), [DbEvent.fetchSQL query params])

/-- core.py `DBBase.execute_script`. -/
def DBBase.execute_script {σ : Type} (m : DBModel σ) (conn : Option σ)
    (script : String) : Except DbError σ × List DbEvent :=
  match conn with
  | none => (Except.error DbError.connectionNotEstablished, [])
  | some s => (Except.ok (m.execScript s script), [DbEvent.scriptSQL script])

/-- models.py `Model.create`: fires `before_save`, builds the INSERT with one
`?` per supplied field, executes it in a transaction (which raises first when
no connection is established), then fires `after_save`. -/
def Model.create {σ : Type} (m : DBModel σ) (conn : Option σ)
    (table_name : String) (kwargs : List (String × SqlVal)) :
    Except DbError (Option σ) × List DbEvent :=
  let before := [DbEvent.hookBeforeSave kwargs]
  let fields := joinSep ", " (kwargs.map Prod.fst)
  let values := kwargs.map Prod.snd
  let placeholders := joinSep ", " (kwargs.map (fun _ => "?"))
  let query := "INSERT INTO " ++ table_name ++ " (" ++ fields ++ ") VALUES ("
    ++ placeholders ++ ")"
  match conn with
  | none => (Except.error DbError.connectionNotEstablished, before)
  | some s =>
    (Except.ok (some (m.exec s query values)),
      before ++ [DbEvent.execSQL query values, DbEvent.hookAfterSave kwargs])

/-- models.py `Model.get`: SELECT with AND-joined equality conditions and
`LIMIT 1`, fetched through `fetch_one`. -/
def Model.get {σ : Type} (m : DBModel σ) (conn : Option σ)
    (table_name : String) (kwargs : List (String × SqlVal)) :
    Except DbError (Option DbRow) × List DbEvent :=
  let conditions := joinSep " AND " (kwargs.map (fun p => p.1 ++ " = ?"))
  let values := kwargs.map Prod.snd
  let query := "SELECT * FROM " ++ table_name ++ " WHERE " ++ conditions
    ++ " LIMIT 1"
  match conn with
  | none => (Except.error DbError.connectionNotEstablished, [])
  | some s => (Except.ok (m.fetch s query values), [DbEvent.fetchSQL query values])

/-- models.py `Model.update`: pre-image fetch via `get(**where)`,
`before_update` hook, UPDATE statement (SET values then WHERE values),
post-image re-fetch via `get` with the unchanged `where`, `after_update`
hook. With no connection the pre-image fetch raises first. -/
def Model.update {σ : Type} (m : DBModel σ) (conn : Option σ)
    (table_name : String) (w updates : List (String × SqlVal)) :
    Except DbError (Option σ) × List DbEvent :=
  match conn with
  | none => (Except.error DbError.connectionNotEstablished, [])
  | some s =>
    let gconditions := joinSep " AND " (w.map (fun p => p.1 ++ " = ?"))
    let gquery := "SELECT * FROM " ++ table_name ++ " WHERE " ++ gconditions
      ++ " LIMIT 1"
    let gvalues := w.map Prod.snd
    let pre := m.fetch s gquery gvalues
    let set_clause := joinSep ", " (updates.map (fun p => p.1 ++ " = ?"))
    let where_clause := joinSep " AND " (w.map (fun p => p.1 ++ " = ?"))
    let values := updates.map Prod.snd ++ w.map Prod.snd
    let query := "UPDATE " ++ table_name ++ " SET " ++ set_clause
      ++ " WHERE " ++ where_clause
    let s1 := m.exec s query values
    let post := m.fetch s1 gquery gvalues
    (Except.ok (some s1),
      [DbEvent.fetchSQL gquery gvalues,
       DbEvent.hookBeforeUpdate pre updates,
       DbEvent.execSQL query values,
       DbEvent.fetchSQL gquery gvalues,
       DbEvent.hookAfterUpdate pre post])

/-- models.py `Model.delete`: fetches the matching row via `get(**kwargs)`
(which raises first when no connection is established), fires
`before_delete` with it, executes the AND-joined DELETE in a transaction,
then fires `after_delete` with the pre-fetched row. -/
def Model.delete {σ : Type} (m : DBModel σ) (conn : Option σ)
    (table_name : String) (kwargs : List (String × SqlVal)) :
    Except DbError (Option σ) × List DbEvent :=
  match conn with
  | none => (Except.error DbError.connectionNotEstablished, [])
  | some s =>
    let gconditions := joinSep " AND " (kwargs.map (fun p => p.1 ++ " = ?"))
    let gquery := "SELECT * FROM " ++ table_name ++ " WHERE " ++ gconditions
      ++ " LIMIT 1"
    let gvalues := kwargs.map Prod.snd
    let inst := m.fetch s gquery gvalues
    let conditions := joinSep " AND " (kwargs.map (fun p => p.1 ++ " = ?"))
    let values := kwargs.map Prod.snd
    let query := "DELETE FROM " ++ table_name ++ " WHERE " ++ conditions
    let s1 := m.exec s query values
    (Except.ok (some s1),
      [DbEvent.fetchSQL gquery gvalues,
       DbEvent.hookBeforeDelete inst,
       DbEvent.execSQL query values,
       DbEvent.hookAfterDelete inst])

/-- query.py `QuerySet`: engine oracle, borrowed connection and the owned
`QueryBuilder` (initialised from the model's table name). -/
structure QuerySet (σ : Type) where
  m : DBModel σ
  conn : Option σ
  query_builder : QueryBuilder

/-- query.py `QueryableModel.objects`: fresh `QuerySet` for a model. -/
def QueryableModel.objects {σ : Type} (m : DBModel σ) (conn : Option σ)
    (table_name : String) : QuerySet σ :=
  ⟨m, conn, QueryBuilder.init table_name⟩

/-- query.py `QuerySet.filter`: mutates the owned builder, fluent return. -/
def QuerySet.filter {σ : Type} (q : QuerySet σ)
    (kwargs : List (String × SqlVal)) : QuerySet σ :=
  { q with query_builder := q.query_builder.add_filter kwargs }

/-- query.py `QuerySet.filter_like`. -/
def QuerySet.filter_like {σ : Type} (q : QuerySet σ)
    (kwargs : List (String × String)) : QuerySet σ :=
  { q with query_builder := q.query_builder.add_filter_like kwargs }

/-- query.py `QuerySet.order_by`. -/
def QuerySet.order_by {σ : Type} (q : QuerySet σ) (field_name : String)
    (descending : Bool) : QuerySet σ :=
  { q with query_builder := q.query_builder.set_order field_name descending }

/-- query.py `QuerySet.get`: first applies the additional equality filter
(mutating the builder), then compiles and fetches one row; the result pairs
the fetch outcome with the mutated `QuerySet`. -/
def QuerySet.get {σ : Type} (q : QuerySet σ)
    (kwargs : List (String × SqlVal)) :
    Except DbError (Option DbRow) × QuerySet σ :=
  let q1 := q.filter kwargs
  let qp := q1.query_builder.build_select
  match q.conn with
  | none => (Except.error DbError.connectionNotEstablished, q1)
  | some s => (Except.ok (q.m.fetch s qp.1 qp.2), q1)

/-- models.py `Field`: storage type and constraint flags. -/
structure Field where
  field_type : String
  primary_key : Bool
  nullable : Bool
  unique : Bool
  default : Option SqlVal
deriving DecidableEq

/-- models.py `Field.get_definition`: column-definition fragment built by
sequential appends. -/
def Field.get_definition (f : Field) : String :=
  let d := f.field_type
  let d := if f.primary_key then d ++ " PRIMARY KEY" else d
  let d := if f.unique then (if f.primary_key then d else d ++ " UNIQUE") else d
  let d := if f.nullable then d else d ++ " NOT NULL"
  match f.default with
  | some v => d ++ " DEFAULT " ++ SqlVal.toText v
  | none => d

/-- models.py `Model.create_table`: builds
`CREATE TABLE IF NOT EXISTS <table> (<name def, ...>)` from the model's
fields in declaration order and executes it in a transaction (which raises
first when no connection is established). -/
def Model.create_table {σ : Type} (m : DBModel σ) (conn : Option σ)
    (table_name : String) (flds : List (String × Field)) :
    Except DbError (Option σ) × List DbEvent :=
  let field_definitions :=
    joinSep ", " (flds.map (fun p => p.1 ++ " " ++ p.2.get_definition))
  let query := "CREATE TABLE IF NOT EXISTS " ++ table_name ++ " ("
    ++ field_definitions ++ ")"
  match conn with
  | none => (Except.error DbError.connectionNotEstablished, [])
  | some s => (Except.ok (some (m.exec s query [])), [DbEvent.execSQL query []])

/-- models.py `Model.drop_table`: executes `DROP TABLE IF EXISTS <table>` in
a transaction (which raises first when no connection is established). -/
def Model.drop_table {σ : Type} (m : DBModel σ) (conn : Option σ)
    (table_name : String) : Except DbError (Option σ) × List DbEvent :=
  let query := "DROP TABLE IF EXISTS " ++ table_name
  match conn with
  | none => (Except.error DbError.connectionNotEstablished, [])
  | some s => (Except.ok (some (m.exec s query [])), [DbEvent.execSQL query []])

/-- A concrete engine oracle over `Nat` states, used to witness the
universally quantified theorems on explicit inputs. -/
def natDB : DBModel Nat where
  exec := fun s _ _ => s + 1
  fetch := fun _ _ _ => none
  fetchAll := fun _ _ _ => []
  execScript := fun s _ => s

/-! ### Helper lemmas -/

/-- Python `sep.join` agrees with `String.intercalate`. -/
theorem joinSep_eq_intercalate (sep : String) (l : List String) :
    joinSep sep l = String.intercalate sep l := by
  cases l with
  | nil => rfl
  | cons x xs =>
    simp only [joinSep, String.intercalate]
    induction xs generalizing x with
    | nil => rfl
    | cons y ys ih =>
      simp only [List.foldl_cons, String.intercalate.go]
      exact ih (x ++ sep ++ y)

theorem countQ_append (a b : String) : countQ (a ++ b) = countQ a + countQ b := by
  simp [countQ, String.data_append, List.count_append]

theorem countQ_foldl (sep : String) (hs : countQ sep = 0) (ys : List String) :
    ∀ x, countQ (ys.foldl (fun acc y => acc ++ sep ++ y) x)
      = countQ x + (ys.map countQ).sum := by
  induction ys with
  | nil => intro x; simp
  | cons y ys ih =>
    intro x
    simp only [List.foldl_cons, List.map_cons, List.sum_cons]
    rw [ih (x ++ sep ++ y), countQ_append, countQ_append, hs]
    omega

theorem countQ_joinSep (sep : String) (hs : countQ sep = 0) (l : List String) :
    countQ (joinSep sep l) = (l.map countQ).sum := by
  cases l with
  | nil => rfl
  | cons x xs =>
    simp only [joinSep, List.map_cons, List.sum_cons]
    rw [countQ_foldl sep hs xs x]

theorem sum_countQ_clauses {β : Type} (suffix : String) (hs : countQ suffix = 1)
    (l : List (String × β)) (h : ∀ p ∈ l, countQ p.1 = 0) :
    ((l.map (fun p => p.1 ++ suffix)).map countQ).sum = l.length := by
  induction l with
  | nil => rfl
  | cons p ps ih =>
    simp only [List.map_cons, List.sum_cons, List.length_cons]
    rw [countQ_append, h p (by simp), hs,
      ih (fun q hq => h q (List.mem_cons_of_mem _ hq))]
    omega

/-! ### Claim theorems -/

/-- Claim C2: the parameter tuple returned by `build_select` is exactly the
equality-filter values in insertion order followed by the LIKE-filter values
each wrapped as a `%value%` string, regardless of the emitted clause text. -/
theorem c2_build_select_params (qb : QueryBuilder) :
    qb.build_select.2
      = qb.filters.map Prod.snd
        ++ qb.filter_likes.map (fun p => SqlVal.strV ("%" ++ p.2 ++ "%")) := rfl

/-- Claim C9: with no connection established, `execute`, `fetch_one`,
`fetch_all`, `execute_script` and every transaction-scoped CRUD operation
(`create`, `update`, `delete`, `get`, `create_table`, `drop_table`) fails
with the connection-not-established error and hands no statement to the
engine (the only event ever produced is `create`'s `before_save` hook, which
fires before the transaction check). -/
theorem c9_requires_connection {σ : Type} (m : DBModel σ) (q script t : String)
    (p : List SqlVal) (kwargs w u : List (String × SqlVal))
    (flds : List (String × Field)) :
    DBBase.execute m (none : Option σ) q p
        = (Except.error DbError.connectionNotEstablished, [])
    ∧ DBBase.fetch_one m (none : Option σ) q p
        = (Except.error DbError.connectionNotEstablished, [])
    ∧ DBBase.fetch_all m (none : Option σ) q p
        = (Except.error DbError.connectionNotEstablished, [])
    ∧ DBBase.execute_script m (none : Option σ) script
        = (Except.error DbError.connectionNotEstablished, [])
    ∧ Model.create m (none : Option σ) t kwargs
        = (Except.error DbError.connectionNotEstablished,
            [DbEvent.hookBeforeSave kwargs])
    ∧ Model.update m (none : Option σ) t w u
        = (Except.error DbError.connectionNotEstablished, [])
    ∧ Model.delete m (none : Option σ) t kwargs
        = (Except.error DbError.connectionNotEstablished, [])
    ∧ Model.get m (none : Option σ) t kwargs
        = (Except.error DbError.connectionNotEstablished, [])
    ∧ Model.create_table m (none : Option σ) t flds
        = (Except.error DbError.connectionNotEstablished, [])
    ∧ Model.drop_table m (none : Option σ) t
        = (Except.error DbError.connectionNotEstablished, []) :=
  ⟨rfl, rfl, rfl, rfl, rfl, rfl, rfl, rfl, rfl, rfl⟩

/-- Claim C10: `Model.get` with zero keyword conditions still emits a WHERE
keyword over an empty AND-join, producing the statement
`SELECT * FROM <t> WHERE  LIMIT 1` (two spaces), rather than rejecting the
call or omitting the clause. -/
theorem c10_get_empty_where {σ : Type} (m : DBModel σ) (s : σ) (t : String) :
    Model.get m (some s) t []
      = (Except.ok (m.fetch s ("SELECT * FROM " ++ t ++ " WHERE  LIMIT 1") []),
         [DbEvent.fetchSQL ("SELECT * FROM " ++ t ++ " WHERE  LIMIT 1") []]) := by
  simp only [Model.get, joinSep, List.map_nil, List.map_nil, String.append_empty,
    String.append_assoc]
  rfl

/-- Claim C4: `QuerySet.get` appends its keyword pairs to the owned builder's
equality-filter sequence and leaves them there after the call, so later
compilation (and later `filter` calls) see them in addition to filters added
before or after; apart from that, the result is the single-row fetch of the
compiled SELECT (first row or `none`). -/
theorem c4_get_mutates_builder {σ : Type} (m : DBModel σ) (s : σ)
    (qb : QueryBuilder) (k extra : List (String × SqlVal)) (_hk : k ≠ []) :
    ((QuerySet.get ⟨m, some s, qb⟩ k).2.query_builder.filters = qb.filters ++ k)
    ∧ (((QuerySet.get ⟨m, some s, qb⟩ k).2.filter extra).query_builder.filters
        = qb.filters ++ k ++ extra)
    ∧ ((QuerySet.get ⟨m, some s, qb⟩ k).1
        = Except.ok (m.fetch s (qb.add_filter k).build_select.1
            (qb.add_filter k).build_select.2)) :=
  ⟨rfl, rfl, rfl⟩

/-- Witness for C4 on a concrete query set: one kwarg appended by `get`,
another appended by a later `filter`. -/
theorem c4_witness :
    ([("id", SqlVal.intV 1)] : List (String × SqlVal)) ≠ []
    ∧ (((QuerySet.get ⟨natDB, some 0, QueryBuilder.init "posts"⟩
          [("id", SqlVal.intV 1)]).2.query_builder.filters
        = (QueryBuilder.init "posts").filters ++ [("id", SqlVal.intV 1)])
      ∧ (((QuerySet.get ⟨natDB, some 0, QueryBuilder.init "posts"⟩
            [("id", SqlVal.intV 1)]).2.filter
              [("x", SqlVal.intV 2)]).query_builder.filters
          = (QueryBuilder.init "posts").filters ++ [("id", SqlVal.intV 1)]
            ++ [("x", SqlVal.intV 2)])
      ∧ ((QuerySet.get ⟨natDB, some 0, QueryBuilder.init "posts"⟩
            [("id", SqlVal.intV 1)]).1
          = Except.ok (natDB.fetch 0
              ((QueryBuilder.init "posts").add_filter
                [("id", SqlVal.intV 1)]).build_select.1
              ((QueryBuilder.init "posts").add_filter
                [("id", SqlVal.intV 1)]).build_select.2))) :=
  ⟨by decide,
   c4_get_mutates_builder natDB 0 (QueryBuilder.init "posts")
     [("id", SqlVal.intV 1)] [("x", SqlVal.intV 2)] (by decide)⟩

/-- Claim C6: `filter` calls append their pairs in call order and never
replace earlier pairs; two single-pair `filter` calls on a fresh query set
compile to `WHERE a = ? AND b = ?` with parameters `(v1, v2)` in order. -/
theorem c6_filters_accumulate {σ : Type} (m : DBModel σ) (conn : Option σ)
    (t a b : String) (v1 v2 : SqlVal) :
    ((((QueryableModel.objects m conn t).filter [(a, v1)]).filter
        [(b, v2)]).query_builder.build_select
      = ("SELECT * FROM " ++ t ++ " WHERE " ++ a ++ " = ?" ++ " AND " ++ b ++ " = ?",
         [v1, v2]))
    ∧ ∀ (q : QuerySet σ) (k : List (String × SqlVal)),
        (q.filter k).query_builder.filters = q.query_builder.filters ++ k := by
  constructor
  · refine Prod.ext ?_ rfl
    apply String.ext
    simp [QueryableModel.objects, QuerySet.filter, QueryBuilder.add_filter,
      QueryBuilder.init, QueryBuilder.build_select, joinSep, String.data_append]
  · intro q k; rfl

/-- Claim C7: `set_order` overwrites; after ordering by `x` then by `y`
descending, only `ORDER BY y DESC` is compiled (the statement is the
ordering-free statement plus that single suffix, and the parameters are
untouched). -/
theorem c7_last_order_wins (qb : QueryBuilder) (x : String) (d : Bool)
    (y : String) :
    ((qb.set_order x d).set_order y true).ordering = some (y ++ " DESC")
    ∧ ((qb.set_order x d).set_order y true).build_select.1
        = ({ qb with ordering := none } : QueryBuilder).build_select.1
          ++ " ORDER BY " ++ y ++ " DESC"
    ∧ ((qb.set_order x d).set_order y true).build_select.2
        = qb.build_select.2 := by
  refine ⟨?_, ?_, rfl⟩
  · simp [QueryBuilder.set_order, String.append_assoc]
  · simp [QueryBuilder.set_order, QueryBuilder.build_select, String.append_assoc]

/-- Claim C8: `Field.get_definition` is the storage-type keyword followed, in
this fixed order, by `PRIMARY KEY` (if primary key), `UNIQUE` (if unique and
not primary key), `NOT NULL` (if not nullable), `DEFAULT <literal>` (if a
default is set), and nothing else. -/
theorem c8_field_definition (f : Field) :
    f.get_definition
      = f.field_type
        ++ (if f.primary_key then " PRIMARY KEY" else "")
        ++ (if f.unique && !f.primary_key then " UNIQUE" else "")
        ++ (if !f.nullable then " NOT NULL" else "")
        ++ (match f.default with
            | some v => " DEFAULT " ++ SqlVal.toText v
            | none => "") := by
  obtain ⟨ft, pk, nl, un, df⟩ := f
  apply String.ext
  cases pk <;> cases nl <;> cases un <;> cases df <;>
    simp [Field.get_definition, String.data_append]

/-- Claim C1 (amended): with both filter kinds non-empty (and `?`-free
identifiers, as Python keyword names are), `build_select` emits BOTH clauses —
the equality-filter WHERE clause followed by a second WHERE keyword carrying
the LIKE clauses — and the number of placeholders equals the length of the
parameter sequence. -/
theorem c1_both_where_clauses (qb : QueryBuilder)
    (hf : qb.filters ≠ []) (hl : qb.filter_likes ≠ [])
    (ht : countQ qb.table_name = 0)
    (hkf : qb.filters.all (fun p => countQ p.1 == 0) = true)
    (hkl : qb.filter_likes.all (fun p => countQ p.1 == 0) = true)
    (ho : countQopt qb.ordering = 0) :
    qb.build_select.1
      = "SELECT * FROM " ++ qb.table_name ++ " WHERE "
        ++ String.intercalate " AND " (qb.filters.map (fun p => p.1 ++ " = ?"))
        ++ " WHERE "
        ++ String.intercalate " AND "
            (qb.filter_likes.map (fun p => p.1 ++ " LIKE ?"))
        ++ (match qb.ordering with
            | some o => " ORDER BY " ++ o
            | none => "")
    ∧ countQ qb.build_select.1 = qb.build_select.2.length := by
  have hf0 : ∀ p ∈ qb.filters, countQ p.1 = 0 := by
    simpa [List.all_eq_true] using hkf
  have hl0 : ∀ p ∈ qb.filter_likes, countQ p.1 = 0 := by
    simpa [List.all_eq_true] using hkl
  constructor
  · simp only [QueryBuilder.build_select]
    rw [if_neg hf, if_neg hl]
    cases h : qb.ordering with
    | none =>
      apply String.ext
      rw [← joinSep_eq_intercalate, ← joinSep_eq_intercalate]
      simp [String.data_append]
    | some o =>
      apply String.ext
      rw [← joinSep_eq_intercalate, ← joinSep_eq_intercalate]
      simp [String.data_append]
  · simp only [QueryBuilder.build_select]
    rw [if_neg hf, if_neg hl]
    have hAND : countQ " AND " = 0 := rfl
    have hEQ : countQ " = ?" = 1 := rfl
    have hLK : countQ " LIKE ?" = 1 := rfl
    cases h : qb.ordering with
    | none =>
      simp only [countQ_append, countQ_joinSep " AND " hAND,
        sum_countQ_clauses " = ?" hEQ qb.filters hf0,
        sum_countQ_clauses " LIKE ?" hLK qb.filter_likes hl0,
        List.length_append, List.length_map, ht]
      rw [show countQ "SELECT * FROM " = 0 from rfl,
        show countQ " WHERE " = 0 from rfl]
      omega
    | some o =>
      have ho0 : countQ o = 0 := by simpa [countQopt, h] using ho
      simp only [countQ_append, countQ_joinSep " AND " hAND,
        sum_countQ_clauses " = ?" hEQ qb.filters hf0,
        sum_countQ_clauses " LIKE ?" hLK qb.filter_likes hl0,
        List.length_append, List.length_map, ht, ho0]
      rw [show countQ "SELECT * FROM " = 0 from rfl,
        show countQ " WHERE " = 0 from rfl,
        show countQ " ORDER BY " = 0 from rfl]
      omega

/-- Counterexample to C1 as stated: with one equality filter and one LIKE
filter, the emitted statement contains the LIKE clause text (after a second
WHERE keyword), and the placeholder count is not strictly less than the
parameter count. -/
theorem c1_counterexample :
    (QueryBuilder.build_select
        ⟨"t", [("a", SqlVal.intV 1)], [("b", "x")], none⟩).1
      = "SELECT * FROM t WHERE a = ? WHERE b LIKE ?"
    ∧ ¬ countQ (QueryBuilder.build_select
          ⟨"t", [("a", SqlVal.intV 1)], [("b", "x")], none⟩).1
        < (QueryBuilder.build_select
            ⟨"t", [("a", SqlVal.intV 1)], [("b", "x")], none⟩).2.length := by
  exact ⟨rfl, by decide⟩

/-- Witness for the amended C1 on the concrete builder used in the
counterexample. -/
theorem c1_witness :
    (([("a", SqlVal.intV 1)] : List (String × SqlVal)) ≠ []
      ∧ ([("b", "x")] : List (String × String)) ≠ []
      ∧ countQ "t" = 0
      ∧ ([("a", SqlVal.intV 1)].all (fun p => countQ p.1 == 0) = true)
      ∧ ([("b", "x")].all (fun p => countQ p.1 == 0) = true)
      ∧ countQopt none = 0)
    ∧ ((QueryBuilder.build_select
          ⟨"t", [("a", SqlVal.intV 1)], [("b", "x")], none⟩).1
        = "SELECT * FROM t WHERE a = ? WHERE b LIKE ?"
      ∧ countQ (QueryBuilder.build_select
            ⟨"t", [("a", SqlVal.intV 1)], [("b", "x")], none⟩).1
          = (QueryBuilder.build_select
              ⟨"t", [("a", SqlVal.intV 1)], [("b", "x")], none⟩).2.length) :=
  ⟨⟨by decide, by decide, by decide, by decide, by decide, rfl⟩,
   c1_both_where_clauses ⟨"t", [("a", SqlVal.intV 1)], [("b", "x")], none⟩
     (by decide) (by decide) (by decide) (by decide) (by decide) rfl⟩

/-- Claim C3: `Model.update` pre-fetches via `get(**where)`, fires
`before_update` with the pre-image and the updates, executes
`UPDATE <t> SET <comma-joined> WHERE <AND-joined>` with update values then
where values, re-fetches the post-image with the original unchanged `where`
query, and fires `after_update` with pre- and post-images — in that order. -/
theorem c3_update_statement_and_hooks {σ : Type} (m : DBModel σ) (s : σ)
    (t : String) (w u : List (String × SqlVal)) (_hw : w ≠ []) (_hu : u ≠ []) :
    Model.update m (some s) t w u
      = (let gq := "SELECT * FROM " ++ t ++ " WHERE "
            ++ String.intercalate " AND " (w.map (fun p => p.1 ++ " = ?"))
            ++ " LIMIT 1"
         let gv := w.map Prod.snd
         let uq := "UPDATE " ++ t ++ " SET "
            ++ String.intercalate ", " (u.map (fun p => p.1 ++ " = ?"))
            ++ " WHERE "
            ++ String.intercalate " AND " (w.map (fun p => p.1 ++ " = ?"))
         let uv := u.map Prod.snd ++ w.map Prod.snd
         (Except.ok (some (m.exec s uq uv)),
          [DbEvent.fetchSQL gq gv,
           DbEvent.hookBeforeUpdate (m.fetch s gq gv) u,
           DbEvent.execSQL uq uv,
           DbEvent.fetchSQL gq gv,
           DbEvent.hookAfterUpdate (m.fetch s gq gv)
             (m.fetch (m.exec s uq uv) gq gv)])) := by
  simp only [Model.update, joinSep_eq_intercalate]

/-- Witness for C3 on a concrete update of `users`. -/
theorem c3_witness :
    ([("id", SqlVal.intV 1)] : List (String × SqlVal)) ≠ []
    ∧ ([("name", SqlVal.strV "Bob")] : List (String × SqlVal)) ≠ []
    ∧ Model.update natDB (some 0) "users" [("id", SqlVal.intV 1)]
        [("name", SqlVal.strV "Bob")]
      = (Except.ok (some 1),
         [DbEvent.fetchSQL "SELECT * FROM users WHERE id = ? LIMIT 1"
            [SqlVal.intV 1],
          DbEvent.hookBeforeUpdate none [("name", SqlVal.strV "Bob")],
          DbEvent.execSQL "UPDATE users SET name = ? WHERE id = ?"
            [SqlVal.strV "Bob", SqlVal.intV 1],
          DbEvent.fetchSQL "SELECT * FROM users WHERE id = ? LIMIT 1"
            [SqlVal.intV 1],
          DbEvent.hookAfterUpdate none none]) :=
  ⟨by decide, by decide,
   c3_update_statement_and_hooks natDB 0 "users" [("id", SqlVal.intV 1)]
     [("name", SqlVal.strV "Bob")] (by decide) (by decide)⟩

/-- Claim C5: `Model.create` executes exactly
`INSERT INTO <t> (<field names>) VALUES (<one placeholder per field>)` with
the supplied values bound as parameters in the same order, firing
`before_save` once before the statement and `after_save` once after, each
with the same keyword values. -/
theorem c5_create_insert {σ : Type} (m : DBModel σ) (s : σ) (t : String)
    (kwargs : List (String × SqlVal)) (_hk : kwargs ≠ []) :
    Model.create m (some s) t kwargs
      = (let q := "INSERT INTO " ++ t ++ " ("
            ++ String.intercalate ", " (kwargs.map Prod.fst)
            ++ ") VALUES ("
            ++ String.intercalate ", " (List.replicate kwargs.length "?")
            ++ ")"
         (Except.ok (some (m.exec s q (kwargs.map Prod.snd))),
          [DbEvent.hookBeforeSave kwargs,
           DbEvent.execSQL q (kwargs.map Prod.snd),
           DbEvent.hookAfterSave kwargs])) := by
  simp only [Model.create, joinSep_eq_intercalate, List.map_const',
    List.singleton_append]

/-- Witness for C5 mirroring the specification's example insert. -/
theorem c5_witness :
    ([("name", SqlVal.strV "Alice"), ("age", SqlVal.intV 30)]
        : List (String × SqlVal)) ≠ []
    ∧ Model.create natDB (some 0) "users"
        [("name", SqlVal.strV "Alice"), ("age", SqlVal.intV 30)]
      = (Except.ok (some 1),
         [DbEvent.hookBeforeSave
            [("name", SqlVal.strV "Alice"), ("age", SqlVal.intV 30)],
          DbEvent.execSQL "INSERT INTO users (name, age) VALUES (?, ?)"
            [SqlVal.strV "Alice", SqlVal.intV 30],
          DbEvent.hookAfterSave
            [("name", SqlVal.strV "Alice"), ("age", SqlVal.intV 30)]]) :=
  ⟨by decide,
   c5_create_insert natDB 0 "users"
     [("name", SqlVal.strV "Alice"), ("age", SqlVal.intV 30)] (by decide)⟩

end Dbbase
